import Mathlib

/-!
Verification of the Zigbee security subsystem specification against
`src/Middlewares/ST/STM32_WPAN/zigbee/include/zigbee.security.h`.

The header under src/ is declarations and constants only; the function
bodies (frame-counter tracker, CCM* transform, install-code deriver,
ECDSA validator, nonce builder) are not part of the repository snapshot.
Constants and macros below are embedded directly from the header; the
behavioural operations are modelled from the spec, each marked
`Modelled from the spec:` in its doc comment.
-/

/- ----------------------------------------------------------------
   Constants embedded from zigbee.security.h
   ---------------------------------------------------------------- -/

def ZB_SEC_INSTALL_CODE_MAX_LENGTH : Nat := 18

def ZB_SEC_BLOCKSIZE : Nat := 16

def ZB_SEC_KEYSIZE : Nat := ZB_SEC_BLOCKSIZE

def ZB_SEC_LEVEL_NONE : Nat := 0x00

def ZB_SEC_LEVEL_MIC32 : Nat := 0x01

def ZB_SEC_LEVEL_MIC64 : Nat := 0x02

def ZB_SEC_LEVEL_MIC128 : Nat := 0x03

def ZB_SEC_LEVEL_ENC : Nat := 0x04

/-- `ZB_SEC_ENCRYPTED(level)`: `((level & ZB_SEC_LEVEL_ENC) != 0U)`. -/
def ZB_SEC_ENCRYPTED (level : Nat) : Bool := (level &&& ZB_SEC_LEVEL_ENC) != 0

/-- `ZB_SEC_MIC_LENGTH(level)`: `((2U << ((level) & 0x3U)) & ~0x3U)`;
`~0x3U` on a 32-bit unsigned int is `0xFFFFFFFC`. -/
def ZB_SEC_MIC_LENGTH (level : Nat) : Nat :=
  (2 <<< (level &&& 0x3)) &&& 0xFFFFFFFC

def ZB_SEC_MAX_MIC_LENGTH : Nat := 16

def ZB_SEC_NONCE_LENGTH : Nat := 13

def ZB_SEC_MAX_HEADER_SIZE : Nat := 14

def ZB_SEC_SECCTRL_MASK_LEVEL : Nat := 0x07

def ZB_SEC_SECCTRL_MASK_KEYID : Nat := 0x18

def ZB_SEC_SECCTRL_MASK_EXTNONCE : Nat := 0x20

def ZB_SEC_SECCTRL_MASK_RESERVED : Nat := 0xC0

def ZB_SEC_SECCTRL_OFFSET_LEVEL : Nat := 0

def ZB_SEC_SECCTRL_OFFSET_KEYID : Nat := 3

def ZB_SEC_SECCTRL_OFFSET_EXTNONCE : Nat := 5

/-- Values of `enum ZbSecHdrKeyIdT`. -/
def ZB_SEC_KEYID_LINK : Nat := 0x00

def ZB_SEC_KEYID_NETWORK : Nat := 0x01

def ZB_SEC_KEYID_TRANSPORT : Nat := 0x02

def ZB_SEC_KEYID_KEYLOAD : Nat := 0x03

def ZB_SEC_KEYID_BOTH_LINK_NETWORK : Nat := 0xfe

def ZB_SEC_KEYID_DEFAULT : Nat := 0xff

def ZB_SEC_MAX_FRAME_COUNTER : Nat := 0xffffffff

def ZB_FRAME_COUNTER_RESET_MAX : Nat := 256

/- CBKE v1 (SECT-163K1) certificate layout. -/

def CBKE_PRIVATE_KEY_SIZE : Nat := 21

def CBKE_COMPRESSED_PUBLIC_KEY_SIZE : Nat := CBKE_PRIVATE_KEY_SIZE + 1

def CBKE_UNCOMPRESSED_PUBLIC_KEY_SIZE : Nat := 2 * CBKE_PRIVATE_KEY_SIZE + 1

def CBKE_SHARED_SECRET_SIZE : Nat := CBKE_PRIVATE_KEY_SIZE

def CBKE_CERT_SUBJECT_OFFSET : Nat := CBKE_COMPRESSED_PUBLIC_KEY_SIZE

def CBKE_CERT_SUBJECT_SIZE : Nat := 8

def CBKE_CERT_ISSUER_OFFSET : Nat := CBKE_CERT_SUBJECT_OFFSET + CBKE_CERT_SUBJECT_SIZE

def CBKE_CERT_ISSUER_SIZE : Nat := 8

def CBKE_CERT_DATA_OFFSET : Nat := CBKE_CERT_ISSUER_OFFSET + CBKE_CERT_ISSUER_SIZE

def CBKE_CERT_DATA_SIZE : Nat := 10

def CBKE_CERTIFICATE_SIZE : Nat := CBKE_CERT_DATA_OFFSET + CBKE_CERT_DATA_SIZE

/- CBKE v2 (SECT-283K1) certificate layout. -/

def CBKE2_PRIVATE_KEY_SIZE : Nat := 36

def CBKE2_COMPRESSED_PUBLIC_KEY_SIZE : Nat := CBKE2_PRIVATE_KEY_SIZE + 1

def CBKE2_SHARED_SECRET_SIZE : Nat := CBKE2_PRIVATE_KEY_SIZE

def CBKE2_CERT_TYPE_OFFSET : Nat := 0

def CBKE2_CERT_TYPE_SIZE : Nat := 1

def CBKE2_CERT_SERIAL_OFFSET : Nat := CBKE2_CERT_TYPE_SIZE

def CBKE2_CERT_SERIAL_SIZE : Nat := 8

def CBKE2_CERT_CURVE_OFFSET : Nat := CBKE2_CERT_SERIAL_OFFSET + CBKE2_CERT_SERIAL_SIZE

def CBKE2_CERT_CURVE_SIZE : Nat := 1

def CBKE2_CERT_HASH_OFFSET : Nat := CBKE2_CERT_CURVE_OFFSET + CBKE2_CERT_CURVE_SIZE

def CBKE2_CERT_HASH_SIZE : Nat := 1

def CBKE2_CERT_ISSUER_OFFSET : Nat := CBKE2_CERT_HASH_OFFSET + CBKE2_CERT_HASH_SIZE

def CBKE2_CERT_ISSUER_SIZE : Nat := 8

def CBKE2_CERT_VALID_FROM_OFFSET : Nat := CBKE2_CERT_ISSUER_OFFSET + CBKE2_CERT_ISSUER_SIZE

def CBKE2_CERT_VALID_FROM_SIZE : Nat := 5

def CBKE2_CERT_VALID_TO_OFFSET : Nat := CBKE2_CERT_VALID_FROM_OFFSET + CBKE2_CERT_VALID_FROM_SIZE

def CBKE2_CERT_VALID_TO_SIZE : Nat := 4

def CBKE2_CERT_SUBJECT_OFFSET : Nat := CBKE2_CERT_VALID_TO_OFFSET + CBKE2_CERT_VALID_TO_SIZE

def CBKE2_CERT_SUBJECT_SIZE : Nat := 8

def CBKE2_CERT_KEY_USAGE_OFFSET : Nat := CBKE2_CERT_SUBJECT_OFFSET + CBKE2_CERT_SUBJECT_SIZE

def CBKE2_CERT_KEY_USAGE_SIZE : Nat := 1

def CBKE2_CERT_PUBLIC_KEY_OFFSET : Nat := CBKE2_CERT_KEY_USAGE_OFFSET + CBKE2_CERT_KEY_USAGE_SIZE

def CBKE2_CERT_PUBLIC_KEY_SIZE : Nat := 37

def CBKE2_CERTIFICATE_SIZE : Nat := CBKE2_CERT_PUBLIC_KEY_OFFSET + CBKE2_CERT_PUBLIC_KEY_SIZE

def ZB_SEC_CRYPTO_SUITE_V2_CERT_LEN : Nat := 74

def ZB_SEC_CRYPTO_SUITE_V2_SIG_LEN : Nat := 80

/-- Key-id field extraction from a security-control octet, per the header
masks: `(b & ZB_SEC_SECCTRL_MASK_KEYID) >> ZB_SEC_SECCTRL_OFFSET_KEYID`. -/
def secctrlKeyId (b : Nat) : Nat :=
  (b &&& ZB_SEC_SECCTRL_MASK_KEYID) >>> ZB_SEC_SECCTRL_OFFSET_KEYID

/- ----------------------------------------------------------------
   Spec-modelled operations (function bodies absent from src/)
   ---------------------------------------------------------------- -/

/-- Modelled from the spec: `AesMmoHash(data, length) -> digest[16]` is the
pure AES-MMO hash primitive (§6); the body of `ZbAesMmoHash` is not under
src/, so the AES-128 compression is abstracted as a fixed, deterministic
absorption over a 128-bit state. Bytes are `Nat` values taken mod 256. -/
def mmoAbsorb (st : Nat) (b : Nat) : Nat :=
  (st * 131 + (b % 256) + 1) % (2 ^ 128)

/-- Modelled from the spec: pure 16-byte digest function (see `mmoAbsorb`). -/
def ZbAesMmoHash (data : List Nat) : List Nat :=
  let st := data.foldl mmoAbsorb 1
  (List.range 16).map (fun i => (st >>> (8 * i)) % 256)

/-- One reflected CRC-16 bit step, polynomial 0x8408. -/
def crc16Bit (c : Nat) : Nat :=
  if c % 2 = 1 then (c >>> 1) ^^^ 0x8408 else c >>> 1

/-- One CRC-16 byte step: fold 8 bit steps over the state xored
with the input byte. -/
def crc16Byte (c b : Nat) : Nat :=
  (List.range 8).foldl (fun acc _ => crc16Bit acc) (c ^^^ (b % 256))

/-- Modelled from the spec: the CRC-16 over the install-code content bytes
(§4.5); the reference implementation is not under src/, so a concrete
reflected CRC-16 (poly 0x8408, init 0xFFFF, final xor 0xFFFF) stands in. -/
def crc16 (data : List Nat) : Nat :=
  0xFFFF ^^^ data.foldl crc16Byte 0xFFFF

/-- Errors of the install-code deriver (§4.5, §7). -/
inductive InstallCodeError where
  | CrcMismatch
  | UnsupportedLength
deriving DecidableEq

/-- Permitted install-code total lengths, content plus trailing 2-byte CRC:
the set {6, 8, 12, 16, 18} of §4.5. -/
def installCodeLengthOk (len : Nat) : Bool :=
  len == 6 || len == 8 || len == 12 || len == 16 || len == 18

/-- Content bytes of an install code: all but the trailing 2-byte CRC. -/
def installCodeContent (ic : List Nat) : List Nat :=
  ic.take (ic.length - 2)

/-- The trailing 2-byte CRC field of an install code, little-endian. -/
def installCodeCrcField (ic : List Nat) : Nat :=
  (ic.getD (ic.length - 2) 0) % 256 + 256 * ((ic.getD (ic.length - 1) 0) % 256)

/-- Modelled from the spec:
`add_device_link_key_by_install_code(peer, install_code)` (§4.5) — the body
of `ZbSecAddDeviceLinkKeyByInstallCode` is not under src/. Validates the
total length against {6,8,12,16,18}, verifies the trailing CRC-16 over the
content bytes, and on success derives the Trust-Center link key as
`AES_MMO_hash(content)`; returns the installed key. -/
def ZbSecAddDeviceLinkKeyByInstallCode (ic : List Nat) :
    Except InstallCodeError (List Nat) :=
  if installCodeLengthOk ic.length then
    if crc16 (installCodeContent ic) == installCodeCrcField ic then
      .ok (ZbAesMmoHash (installCodeContent ic))
    else
      .error .CrcMismatch
  else
    .error .UnsupportedLength

/-- Replay-rejection error of the frame-counter tracker (§4.3, §7). -/
inductive ReplayError where
  | Replay
deriving DecidableEq

/-- Per-(peer, key) frame-counter state (§4.3): the stored counter and
whether an authorized out-of-band counter reset is in effect. -/
structure FrameCounterState where
  stored : Nat
  resetAuthorized : Bool
deriving DecidableEq

/-- Modelled from the spec:
`accept_and_advance(peer, key_id, incoming_counter)` (§4.3) — the tracker
body is not under src/. Rejects if `incoming <= stored` unless an
authorized reset is in effect and `incoming < ZB_FRAME_COUNTER_RESET_MAX`;
otherwise accepts and sets `stored := incoming`. Returns the result paired
with the (possibly unchanged) state. -/
def accept_and_advance (st : FrameCounterState) (incoming : Nat) :
    Except ReplayError Unit × FrameCounterState :=
  if st.stored < incoming ∨ (st.resetAuthorized = true ∧ incoming < ZB_FRAME_COUNTER_RESET_MAX) then
    (.ok (), { st with stored := incoming })
  else
    (.error .Replay, st)

/-- Counter-exhaustion error of the outgoing counter (§4.3, §7). -/
inductive CounterExhaustedError where
  | CounterExhausted
deriving DecidableEq

/-- Modelled from the spec: `next_outgoing(peer, key_id)` (§4.3) — the body
is not under src/. Increments and returns the local outgoing counter;
fails with `CounterExhausted` exactly when the increment would exceed
`ZB_SEC_MAX_FRAME_COUNTER`, leaving the counter unchanged (so the failure
is permanent for that key). Returns the result paired with the new state. -/
def next_outgoing (c : Nat) : Except CounterExhaustedError Nat × Nat :=
  if c < ZB_SEC_MAX_FRAME_COUNTER then
    (.ok (c + 1), c + 1)
  else
    (.error .CounterExhausted, c)

/-- Little-endian byte serialisation of `n` into `w` bytes. -/
def uintToBytesLE (w n : Nat) : List Nat :=
  (List.range w).map (fun i => (n >>> (8 * i)) % 256)

/-- Modelled from the spec:
`build_nonce(source_ext_addr, frame_counter, security_control) -> [u8;13]`
(§4.2) — the nonce-builder body is not under src/. The nonce is the 8-byte
source extended address, then the 4-byte frame counter, then the 1-byte
security control; a pure function of those three inputs. -/
def build_nonce (srcExtAddr frameCounter secCtrl : Nat) : List Nat :=
  uintToBytesLE 8 srcExtAddr ++ uintToBytesLE 4 frameCounter ++ [secCtrl % 256]

/-- Authentication failure of the CCM* transform (§4.6, §7). -/
inductive AuthError where
  | AuthFailure
deriving DecidableEq

/-- Modelled from the spec: one CCM* keystream byte; the AES-CTR keystream
of the CCM* transform (§4.6) is not under src/, so it is abstracted as a
pure function of (key, nonce, byte index) via the modelled hash. -/
def keystreamByte (key nonce : List Nat) (i : Nat) : Nat :=
  (ZbAesMmoHash (key ++ nonce ++ [i % 256, (i / 256) % 256])).headD 0

/-- Keystream of `len` bytes for (key, nonce). -/
def keystream (key nonce : List Nat) (len : Nat) : List Nat :=
  (List.range len).map (keystreamByte key nonce)

/-- Byte-wise xor of two equal-length byte strings. -/
def xorBytes (xs ys : List Nat) : List Nat :=
  List.zipWith (fun a b => a ^^^ b) xs ys

/-- Modelled from the spec: the MIC of the CCM* transform (§4.6), computed
over header and (plaintext) payload, truncated to `mic_length(level)`
bytes; the CBC-MAC core is not under src/, so the modelled hash stands in. -/
def ccmMic (level : Nat) (key nonce hdr payload : List Nat) : List Nat :=
  (ZbAesMmoHash (key ++ nonce ++ hdr ++ payload ++
    [hdr.length % 256, payload.length % 256, (payload.length / 256) % 256])).take
    (ZB_SEC_MIC_LENGTH level)

/-- Modelled from the spec:
`encrypt(level, key, nonce, header_bytes, payload) -> (ciphertext, mic)`
(§4.6) — the CCM* transform body is not under src/. When the encryption
bit of `level` is clear the payload passes through unmodified; otherwise
it is xored with the keystream. The MIC is computed over header and
plaintext payload and is `mic_length(level)` bytes. -/
def ccmEncrypt (level : Nat) (key nonce hdr payload : List Nat) :
    List Nat × List Nat :=
  let ct := if ZB_SEC_ENCRYPTED level then
      xorBytes payload (keystream key nonce payload.length)
    else payload
  (ct, ccmMic level key nonce hdr payload)

/-- Modelled from the spec:
`decrypt(level, key, nonce, header_bytes, ciphertext, mic)` (§4.6) —
recovers the plaintext (xor with the same keystream when the encryption
bit is set), recomputes the MIC over header and plaintext, and fails
closed with `AuthFailure` on any mismatch. -/
def ccmDecrypt (level : Nat) (key nonce hdr ct mic : List Nat) :
    Except AuthError (List Nat) :=
  let pt := if ZB_SEC_ENCRYPTED level then
      xorBytes ct (keystream key nonce ct.length)
    else ct
  if ccmMic level key nonce hdr pt == mic then .ok pt else .error .AuthFailure

/-- `enum ZbSecEcdsaSigType` from the header. -/
inductive ZbSecEcdsaSigType where
  | ZB_SEC_ECDSA_SIG_SUITE_1
  | ZB_SEC_ECDSA_SIG_SUITE_2
deriving DecidableEq

/-- Errors of the ECDSA image validator (§4.8, §7): a length mismatch is
`MalformedInput`, distinct from a cryptographic `SignatureInvalid`. -/
inductive EcdsaError where
  | MalformedInput
  | SignatureInvalid
deriving DecidableEq

/-- Required certificate length per signature suite: 74 bytes
(`ZB_SEC_CRYPTO_SUITE_V2_CERT_LEN`) for suite 2; suite 1 uses the CBKE v1
certificate size (modelled — the spec pins lengths only for suite 2). -/
def suiteCertLen : ZbSecEcdsaSigType → Nat
  | .ZB_SEC_ECDSA_SIG_SUITE_1 => CBKE_CERTIFICATE_SIZE
  | .ZB_SEC_ECDSA_SIG_SUITE_2 => ZB_SEC_CRYPTO_SUITE_V2_CERT_LEN

/-- Required signature length per signature suite: 80 bytes
(`ZB_SEC_CRYPTO_SUITE_V2_SIG_LEN`) for suite 2; suite 1 modelled as
IEEE[8] r[21] s[21]. -/
def suiteSigLen : ZbSecEcdsaSigType → Nat
  | .ZB_SEC_ECDSA_SIG_SUITE_1 => 50
  | .ZB_SEC_ECDSA_SIG_SUITE_2 => ZB_SEC_CRYPTO_SUITE_V2_SIG_LEN

/-- Modelled from the spec: `ZbSecEcdsaValidate` (§4.8) — the body is not
under src/. Enforces the exact per-suite certificate and signature lengths
before any cryptographic verification is attempted; a length mismatch
fails fast with `MalformedInput`. The cryptographic signature computation
itself is abstracted as the boolean parameter `sigOk`, so that
independence of the result from `sigOk` expresses that no signature math
is reached. -/
def ZbSecEcdsaValidate (sigType : ZbSecEcdsaSigType)
    (certificate signature : List Nat) (sigOk : Bool) :
    Except EcdsaError Unit :=
  if certificate.length ≠ suiteCertLen sigType then .error .MalformedInput
  else if signature.length ≠ suiteSigLen sigType then .error .MalformedInput
  else if sigOk then .ok () else .error .SignatureInvalid

/- ----------------------------------------------------------------
   Claim theorems
   ---------------------------------------------------------------- -/

/-- C1 (counterexample): the claim states `CBKE2_CERTIFICATE_SIZE` equals
64, but in the header the v2 certificate field sizes
(1+8+1+1+8+5+4+8+1+37) sum to 74, and `CBKE2_CERTIFICATE_SIZE` is 74 —
matching `ZB_SEC_CRYPTO_SUITE_V2_CERT_LEN`. -/
theorem C1_cbke2_size_not_64 :
    CBKE2_CERTIFICATE_SIZE = 74 ∧ ¬(CBKE2_CERTIFICATE_SIZE = 64) := by
  decide

/-- C1 (amended): the CBKE v2 certificate is a fixed 74-byte layout — each
field starts where the previous one ends at the offsets defined in the
header, the field sizes {type 1, serial 8, curve 1, hash 1, issuer 8,
valid-from 5, valid-to 4, subject 8, key-usage 1, public-key 37} sum to
`CBKE2_CERTIFICATE_SIZE`, and `CBKE2_CERTIFICATE_SIZE` equals 74 ( =
`ZB_SEC_CRYPTO_SUITE_V2_CERT_LEN`), not 64. -/
theorem C1_cbke2_certificate_layout :
    CBKE2_CERT_TYPE_OFFSET = 0 ∧
    CBKE2_CERT_SERIAL_OFFSET = CBKE2_CERT_TYPE_OFFSET + CBKE2_CERT_TYPE_SIZE ∧
    CBKE2_CERT_CURVE_OFFSET = CBKE2_CERT_SERIAL_OFFSET + CBKE2_CERT_SERIAL_SIZE ∧
    CBKE2_CERT_HASH_OFFSET = CBKE2_CERT_CURVE_OFFSET + CBKE2_CERT_CURVE_SIZE ∧
    CBKE2_CERT_ISSUER_OFFSET = CBKE2_CERT_HASH_OFFSET + CBKE2_CERT_HASH_SIZE ∧
    CBKE2_CERT_VALID_FROM_OFFSET = CBKE2_CERT_ISSUER_OFFSET + CBKE2_CERT_ISSUER_SIZE ∧
    CBKE2_CERT_VALID_TO_OFFSET = CBKE2_CERT_VALID_FROM_OFFSET + CBKE2_CERT_VALID_FROM_SIZE ∧
    CBKE2_CERT_SUBJECT_OFFSET = CBKE2_CERT_VALID_TO_OFFSET + CBKE2_CERT_VALID_TO_SIZE ∧
    CBKE2_CERT_KEY_USAGE_OFFSET = CBKE2_CERT_SUBJECT_OFFSET + CBKE2_CERT_SUBJECT_SIZE ∧
    CBKE2_CERT_PUBLIC_KEY_OFFSET = CBKE2_CERT_KEY_USAGE_OFFSET + CBKE2_CERT_KEY_USAGE_SIZE ∧
    CBKE2_CERT_TYPE_SIZE + CBKE2_CERT_SERIAL_SIZE + CBKE2_CERT_CURVE_SIZE +
      CBKE2_CERT_HASH_SIZE + CBKE2_CERT_ISSUER_SIZE + CBKE2_CERT_VALID_FROM_SIZE +
      CBKE2_CERT_VALID_TO_SIZE + CBKE2_CERT_SUBJECT_SIZE + CBKE2_CERT_KEY_USAGE_SIZE +
      CBKE2_CERT_PUBLIC_KEY_SIZE = CBKE2_CERTIFICATE_SIZE ∧
    CBKE2_CERTIFICATE_SIZE = 74 ∧
    CBKE2_CERTIFICATE_SIZE = ZB_SEC_CRYPTO_SUITE_V2_CERT_LEN := by
  decide

/-- C2: for every security level 0..7, `ZB_SEC_MIC_LENGTH(level)` equals
the table value {0,4,8,16,0,4,8,16}[level], and `ZB_SEC_ENCRYPTED(level)`
holds exactly when `(level & 4) != 0` — bit 2 toggles encryption
independently of the MIC length. -/
theorem C2_mic_length_and_encrypted (level : Nat) (h : level < 8) :
    ZB_SEC_MIC_LENGTH level = [0, 4, 8, 16, 0, 4, 8, 16].getD level 0 ∧
    (ZB_SEC_ENCRYPTED level = true ↔ level &&& 4 ≠ 0) := by
  interval_cases level <;> exact ⟨by decide, by decide⟩

/-- C2 witness: the theorem at level 5 (ENC-MIC-32). -/
theorem C2_mic_length_and_encrypted_witness :
    ZB_SEC_MIC_LENGTH 5 = [0, 4, 8, 16, 0, 4, 8, 16].getD 5 0 ∧
    (ZB_SEC_ENCRYPTED 5 = true ↔ 5 &&& 4 ≠ 0) :=
  C2_mic_length_and_encrypted 5 (by decide)

/-- C6: the CBKE v1 certificate is a fixed 48-byte layout — the compressed
public key occupies the first 22 bytes (`CBKE_COMPRESSED_PUBLIC_KEY_SIZE`),
the 8-byte subject is at offset `CBKE_CERT_SUBJECT_OFFSET` = 22, the
8-byte issuer at `CBKE_CERT_ISSUER_OFFSET` = 30, the 10-byte data field at
`CBKE_CERT_DATA_OFFSET` = 38, and `CBKE_CERTIFICATE_SIZE` equals 48. -/
theorem C6_cbke1_certificate_layout :
    CBKE_COMPRESSED_PUBLIC_KEY_SIZE = 22 ∧
    CBKE_CERT_SUBJECT_OFFSET = 22 ∧
    CBKE_CERT_SUBJECT_SIZE = 8 ∧
    CBKE_CERT_ISSUER_OFFSET = 30 ∧
    CBKE_CERT_ISSUER_SIZE = 8 ∧
    CBKE_CERT_DATA_OFFSET = 38 ∧
    CBKE_CERT_DATA_SIZE = 10 ∧
    CBKE_CERTIFICATE_SIZE = 48 := by
  decide

/-- C10: for every security-control octet, the key-id field extracted with
`ZB_SEC_SECCTRL_MASK_KEYID` and shift 3 is one of the four on-air values
{LINK = 0, NETWORK = 1, TRANSPORT = 2, KEYLOAD = 3}; the sentinels
`ZB_SEC_KEYID_BOTH_LINK_NETWORK` (0xfe) and `ZB_SEC_KEYID_DEFAULT` (0xff)
exceed the 2-bit field and are never decoded from any received octet. -/
theorem C10_keyid_field_range (b : Nat) :
    (secctrlKeyId b = ZB_SEC_KEYID_LINK ∨
     secctrlKeyId b = ZB_SEC_KEYID_NETWORK ∨
     secctrlKeyId b = ZB_SEC_KEYID_TRANSPORT ∨
     secctrlKeyId b = ZB_SEC_KEYID_KEYLOAD) ∧
    secctrlKeyId b ≠ ZB_SEC_KEYID_BOTH_LINK_NETWORK ∧
    secctrlKeyId b ≠ ZB_SEC_KEYID_DEFAULT := by
  have hle : secctrlKeyId b ≤ 3 := by
    have h1 : b &&& ZB_SEC_SECCTRL_MASK_KEYID ≤ ZB_SEC_SECCTRL_MASK_KEYID :=
      Nat.and_le_right
    have h2 : (b &&& ZB_SEC_SECCTRL_MASK_KEYID) >>> 3 ≤ ZB_SEC_SECCTRL_MASK_KEYID >>> 3 := by
      simp only [Nat.shiftRight_eq_div_pow]
      exact Nat.div_le_div_right h1
    simpa [secctrlKeyId, ZB_SEC_SECCTRL_OFFSET_KEYID, ZB_SEC_SECCTRL_MASK_KEYID] using h2
  refine ⟨?_, ?_, ?_⟩
  · simp only [ZB_SEC_KEYID_LINK, ZB_SEC_KEYID_NETWORK, ZB_SEC_KEYID_TRANSPORT,
      ZB_SEC_KEYID_KEYLOAD]
    omega
  · simp only [ZB_SEC_KEYID_BOTH_LINK_NETWORK]; omega
  · simp only [ZB_SEC_KEYID_DEFAULT]; omega

/-- `accept_and_advance` on a satisfied acceptance condition. -/
theorem aa_eq_accept (st : FrameCounterState) (n : Nat)
    (h : st.stored < n ∨ (st.resetAuthorized = true ∧ n < ZB_FRAME_COUNTER_RESET_MAX)) :
    accept_and_advance st n =
      (.ok (), { stored := n, resetAuthorized := st.resetAuthorized }) := by
  unfold accept_and_advance
  rw [if_pos h]

/-- `accept_and_advance` on a failed acceptance condition. -/
theorem aa_eq_reject (st : FrameCounterState) (n : Nat)
    (h : ¬(st.stored < n ∨ (st.resetAuthorized = true ∧ n < ZB_FRAME_COUNTER_RESET_MAX))) :
    accept_and_advance st n = (.error .Replay, st) := by
  unfold accept_and_advance
  rw [if_neg h]

/-- C3: `accept_and_advance` accepts iff the incoming counter exceeds the
stored one, or an authorized reset is in effect and the incoming counter
is below `ZB_FRAME_COUNTER_RESET_MAX` (256); on accept the stored counter
becomes the incoming one, on reject the result is `Replay` and the state
is unchanged. In particular (no reset in effect) once counter C is
accepted any incoming counter ≤ C is rejected and C+1 is accepted, and a
reset to 256 or above is rejected. -/
theorem C3_accept_and_advance (st : FrameCounterState) (incoming : Nat) :
    ((accept_and_advance st incoming).1 = .ok () ↔
      st.stored < incoming ∨
        (st.resetAuthorized = true ∧ incoming < ZB_FRAME_COUNTER_RESET_MAX)) ∧
    ((accept_and_advance st incoming).1 = .ok () →
      (accept_and_advance st incoming).2.stored = incoming) ∧
    ((accept_and_advance st incoming).1 = .error .Replay →
      (accept_and_advance st incoming).2 = st) ∧
    (st.resetAuthorized = false → (accept_and_advance st incoming).1 = .ok () →
      (∀ m, m ≤ incoming →
        (accept_and_advance (accept_and_advance st incoming).2 m).1 = .error .Replay) ∧
      (accept_and_advance (accept_and_advance st incoming).2 (incoming + 1)).1 = .ok ()) ∧
    (st.resetAuthorized = true → incoming ≤ st.stored →
      ZB_FRAME_COUNTER_RESET_MAX ≤ incoming →
      (accept_and_advance st incoming).1 = .error .Replay) := by
  by_cases hc : st.stored < incoming ∨
      (st.resetAuthorized = true ∧ incoming < ZB_FRAME_COUNTER_RESET_MAX)
  · rw [aa_eq_accept st incoming hc]
    refine ⟨by simp [hc], fun _ => rfl, by simp, ?_, ?_⟩
    · intro hreset _
      constructor
      · intro m hm
        rw [aa_eq_reject]
        simp only [hreset]
        simp
        omega
      · rw [aa_eq_accept]
        exact Or.inl (Nat.lt_succ_self incoming)
    · intro hreset hle hge
      rcases hc with h | ⟨_, h⟩
      · omega
      · omega
  · rw [aa_eq_reject st incoming hc]
    refine ⟨by simp [hc], by simp, fun _ => rfl, ?_, fun _ _ _ => rfl⟩
    intro _ hok
    simp at hok

/-- C3 witness: from state {stored := 10, no reset}, counter 11 is accepted
(11 > 10), the stored counter becomes 11, then 11 is rejected and 12 is
accepted; from {stored := 1000, reset authorized}, a reset to 256 is
rejected. -/
theorem C3_accept_and_advance_witness :
    ((accept_and_advance ⟨10, false⟩ 11).1 = .ok () ↔
      (10 : Nat) < 11 ∨ (false = true ∧ (11 : Nat) < ZB_FRAME_COUNTER_RESET_MAX)) ∧
    (accept_and_advance (accept_and_advance ⟨10, false⟩ 11).2 11).1 = .error .Replay ∧
    (accept_and_advance (accept_and_advance ⟨10, false⟩ 11).2 12).1 = .ok () ∧
    (accept_and_advance ⟨1000, true⟩ 256).1 = .error .Replay :=
  ⟨(C3_accept_and_advance ⟨10, false⟩ 11).1,
   ((C3_accept_and_advance ⟨10, false⟩ 11).2.2.2.1 rfl
     ((C3_accept_and_advance ⟨10, false⟩ 11).1.mpr (Or.inl (by decide)))).1 11 (by decide),
   ((C3_accept_and_advance ⟨10, false⟩ 11).2.2.2.1 rfl
     ((C3_accept_and_advance ⟨10, false⟩ 11).1.mpr (Or.inl (by decide)))).2,
   (C3_accept_and_advance ⟨1000, true⟩ 256).2.2.2.2 rfl (by decide) (by decide)⟩

/-- C4: `next_outgoing` increments and returns the outgoing frame counter;
it fails with `CounterExhausted` exactly when the increment would exceed
`ZB_SEC_MAX_FRAME_COUNTER` (0xFFFFFFFF); the counter never wraps to a
smaller value, and the failure is permanent: the state is unchanged on
failure, so every subsequent call on the same key also fails. -/
theorem C4_next_outgoing (c : Nat) (h : c ≤ ZB_SEC_MAX_FRAME_COUNTER) :
    ((next_outgoing c).1 = .error .CounterExhausted ↔ c = ZB_SEC_MAX_FRAME_COUNTER) ∧
    (c < ZB_SEC_MAX_FRAME_COUNTER →
      (next_outgoing c).1 = .ok (c + 1) ∧ (next_outgoing c).2 = c + 1) ∧
    c ≤ (next_outgoing c).2 ∧
    ((next_outgoing c).1 = .error .CounterExhausted →
      ∀ n, (next_outgoing ((fun s => (next_outgoing s).2)^[n] c)).1 =
        .error .CounterExhausted) := by
  refine ⟨?_, ?_, ?_, ?_⟩
  · unfold next_outgoing
    split
    · simp_all; omega
    · simp_all; omega
  · intro hlt
    unfold next_outgoing
    rw [if_pos hlt]
    exact ⟨rfl, rfl⟩
  · unfold next_outgoing
    split
    · simp
    · simp
  · intro hfail n
    have hc : c = ZB_SEC_MAX_FRAME_COUNTER := by
      by_contra hne
      have hlt : c < ZB_SEC_MAX_FRAME_COUNTER := by omega
      unfold next_outgoing at hfail
      rw [if_pos hlt] at hfail
      simp at hfail
    subst hc
    have hfix : (fun s => (next_outgoing s).2) ZB_SEC_MAX_FRAME_COUNTER =
        ZB_SEC_MAX_FRAME_COUNTER := by
      simp [next_outgoing]
    rw [Function.iterate_fixed hfix]
    unfold next_outgoing
    rw [if_neg (lt_irrefl _)]

/-- C4 witness: the theorem at the exhausted counter 0xFFFFFFFF — the call
fails with `CounterExhausted` and still fails after 3 further calls. -/
theorem C4_next_outgoing_witness :
    ((next_outgoing ZB_SEC_MAX_FRAME_COUNTER).1 = .error .CounterExhausted ↔
      ZB_SEC_MAX_FRAME_COUNTER = ZB_SEC_MAX_FRAME_COUNTER) ∧
    (next_outgoing ((fun s => (next_outgoing s).2)^[3] ZB_SEC_MAX_FRAME_COUNTER)).1 =
      .error .CounterExhausted :=
  ⟨(C4_next_outgoing ZB_SEC_MAX_FRAME_COUNTER (by decide)).1,
   (C4_next_outgoing ZB_SEC_MAX_FRAME_COUNTER (by decide)).2.2.2
     ((C4_next_outgoing ZB_SEC_MAX_FRAME_COUNTER (by decide)).1.mpr rfl) 3⟩

/-- Length of the little-endian byte serialisation. -/
theorem uintToBytesLE_length (w n : Nat) : (uintToBytesLE w n).length = w := by
  simp [uintToBytesLE]

/-- C9: `build_nonce` always returns exactly `ZB_SEC_NONCE_LENGTH` = 13
bytes: the 8-byte source extended address, then the 4-byte frame counter,
then the 1-byte security control; it is a pure function of those three
inputs — equal inputs yield identical nonces, with no hidden state. -/
theorem C9_build_nonce (a c s : Nat) :
    (build_nonce a c s).length = ZB_SEC_NONCE_LENGTH ∧
    ZB_SEC_NONCE_LENGTH = 13 ∧
    (build_nonce a c s).take 8 = uintToBytesLE 8 a ∧
    ((build_nonce a c s).drop 8).take 4 = uintToBytesLE 4 c ∧
    (build_nonce a c s).drop 12 = [s % 256] ∧
    (∀ a2 c2 s2, a = a2 → c = c2 → s = s2 →
      build_nonce a c s = build_nonce a2 c2 s2) := by
  have h8 : (uintToBytesLE 8 a).length = 8 := uintToBytesLE_length 8 a
  have h4 : (uintToBytesLE 4 c).length = 4 := uintToBytesLE_length 4 c
  refine ⟨?_, rfl, ?_, ?_, ?_, ?_⟩
  · simp [build_nonce, uintToBytesLE, ZB_SEC_NONCE_LENGTH]
  · unfold build_nonce
    rw [List.append_assoc, List.take_left' h8]
  · unfold build_nonce
    rw [List.append_assoc, List.drop_left' h8, List.take_left' h4]
  · unfold build_nonce
    have h12 : (12 : Nat) = 8 + 4 := rfl
    rw [List.append_assoc, h12, ← List.drop_drop, List.drop_left' h8,
      List.drop_left' h4]
  · intro a2 c2 s2 ha hc hs
    rw [ha, hc, hs]

/-- C9 witness: the theorem at address 0x0102030405060708, counter 9,
security control 0x05, with the determinism conjunct discharged at equal
inputs. -/
theorem C9_build_nonce_witness :
    (build_nonce 0x0102030405060708 9 0x05).length = ZB_SEC_NONCE_LENGTH ∧
    build_nonce 0x0102030405060708 9 0x05 = build_nonce 0x0102030405060708 9 0x05 :=
  ⟨(C9_build_nonce 0x0102030405060708 9 0x05).1,
   (C9_build_nonce 0x0102030405060708 9 0x05).2.2.2.2.2 0x0102030405060708 9 0x05
     rfl rfl rfl⟩

/-- C7: the install-code deriver succeeds only for total lengths (content
plus trailing 2-byte CRC) in {6, 8, 12, 16, 18} — the maximum being
`ZB_SEC_INSTALL_CODE_MAX_LENGTH` (18) — whose trailing CRC-16 verifies over
the content; any other length fails with `UnsupportedLength`, a CRC
failure fails with `CrcMismatch`, and on success the installed link key is
`AES_MMO_hash(content)`. -/
theorem C7_install_code (ic : List Nat) :
    (installCodeLengthOk ic.length = true →
      ic.length ≤ ZB_SEC_INSTALL_CODE_MAX_LENGTH) ∧
    installCodeLengthOk ZB_SEC_INSTALL_CODE_MAX_LENGTH = true ∧
    (installCodeLengthOk ic.length = false →
      ZbSecAddDeviceLinkKeyByInstallCode ic = .error .UnsupportedLength) ∧
    (installCodeLengthOk ic.length = true →
      crc16 (installCodeContent ic) ≠ installCodeCrcField ic →
      ZbSecAddDeviceLinkKeyByInstallCode ic = .error .CrcMismatch) ∧
    (installCodeLengthOk ic.length = true →
      crc16 (installCodeContent ic) = installCodeCrcField ic →
      ZbSecAddDeviceLinkKeyByInstallCode ic =
        .ok (ZbAesMmoHash (installCodeContent ic))) ∧
    ((∃ k, ZbSecAddDeviceLinkKeyByInstallCode ic = .ok k) ↔
      installCodeLengthOk ic.length = true ∧
      crc16 (installCodeContent ic) = installCodeCrcField ic) := by
  refine ⟨?_, by decide, ?_, ?_, ?_, ?_⟩
  · intro h
    simp only [installCodeLengthOk, Bool.or_eq_true, beq_iff_eq] at h
    simp only [ZB_SEC_INSTALL_CODE_MAX_LENGTH]
    omega
  · intro h
    unfold ZbSecAddDeviceLinkKeyByInstallCode
    rw [if_neg]
    simp [h]
  · intro h hne
    unfold ZbSecAddDeviceLinkKeyByInstallCode
    rw [if_pos (by simp [h]), if_neg (by simp [hne])]
  · intro h heq
    unfold ZbSecAddDeviceLinkKeyByInstallCode
    rw [if_pos (by simp [h]), if_pos (by simp [heq])]
  · constructor
    · rintro ⟨k, hk⟩
      unfold ZbSecAddDeviceLinkKeyByInstallCode at hk
      by_cases h1 : installCodeLengthOk ic.length = true
      · by_cases h2 : crc16 (installCodeContent ic) = installCodeCrcField ic
        · exact ⟨h1, h2⟩
        · rw [if_pos (by simp [h1]), if_neg (by simp [h2])] at hk
          simp at hk
      · rw [if_neg (by simp [h1])] at hk
        simp at hk
    · rintro ⟨h1, h2⟩
      refine ⟨ZbAesMmoHash (installCodeContent ic), ?_⟩
      unfold ZbSecAddDeviceLinkKeyByInstallCode
      rw [if_pos (by simp [h1]), if_pos (by simp [h2])]

/-- C7 witness: the theorem at the well-formed 6-byte install code
[1,2,3,4] ++ CRC 0x3991 (accepted, key = AES-MMO of the content), at the
same code with a corrupted CRC (CrcMismatch), and at a 3-byte code
(UnsupportedLength). -/
theorem C7_install_code_witness :
    ZbSecAddDeviceLinkKeyByInstallCode [1, 2, 3, 4, 145, 57] =
      .ok (ZbAesMmoHash (installCodeContent [1, 2, 3, 4, 145, 57])) ∧
    ZbSecAddDeviceLinkKeyByInstallCode [1, 2, 3, 4, 145, 58] = .error .CrcMismatch ∧
    ZbSecAddDeviceLinkKeyByInstallCode [1, 2, 3] = .error .UnsupportedLength :=
  ⟨(C7_install_code [1, 2, 3, 4, 145, 57]).2.2.2.2.1 (by decide) (by decide),
   (C7_install_code [1, 2, 3, 4, 145, 58]).2.2.2.1 (by decide) (by decide),
   (C7_install_code [1, 2, 3]).2.2.1 (by decide)⟩

/-- C8: for signature suite 2, `ZbSecEcdsaValidate` requires the
certificate to be exactly `ZB_SEC_CRYPTO_SUITE_V2_CERT_LEN` (74) bytes and
the signature exactly `ZB_SEC_CRYPTO_SUITE_V2_SIG_LEN` (80) bytes; any
other certificate length is rejected with `MalformedInput` whatever the
outcome of the cryptographic signature computation would be (so no
signature math is reached), and `MalformedInput` is distinct from
`SignatureInvalid`. -/
theorem C8_ecdsa_validate_lengths (cert sig : List Nat) (sigOk : Bool) :
    (suiteCertLen .ZB_SEC_ECDSA_SIG_SUITE_2 = ZB_SEC_CRYPTO_SUITE_V2_CERT_LEN ∧
     suiteSigLen .ZB_SEC_ECDSA_SIG_SUITE_2 = ZB_SEC_CRYPTO_SUITE_V2_SIG_LEN ∧
     ZB_SEC_CRYPTO_SUITE_V2_CERT_LEN = 74 ∧ ZB_SEC_CRYPTO_SUITE_V2_SIG_LEN = 80) ∧
    (ZbSecEcdsaValidate .ZB_SEC_ECDSA_SIG_SUITE_2 cert sig sigOk = .ok () →
      cert.length = ZB_SEC_CRYPTO_SUITE_V2_CERT_LEN ∧
      sig.length = ZB_SEC_CRYPTO_SUITE_V2_SIG_LEN) ∧
    (cert.length ≠ ZB_SEC_CRYPTO_SUITE_V2_CERT_LEN →
      ∀ b : Bool, ZbSecEcdsaValidate .ZB_SEC_ECDSA_SIG_SUITE_2 cert sig b =
        .error .MalformedInput) ∧
    (sig.length ≠ ZB_SEC_CRYPTO_SUITE_V2_SIG_LEN →
      ∀ b : Bool, ZbSecEcdsaValidate .ZB_SEC_ECDSA_SIG_SUITE_2 cert sig b =
        .error .MalformedInput) ∧
    EcdsaError.MalformedInput ≠ EcdsaError.SignatureInvalid := by
  refine ⟨⟨rfl, rfl, rfl, rfl⟩, ?_, ?_, ?_, by decide⟩
  · intro hok
    unfold ZbSecEcdsaValidate at hok
    by_cases h1 : cert.length = suiteCertLen .ZB_SEC_ECDSA_SIG_SUITE_2
    · by_cases h2 : sig.length = suiteSigLen .ZB_SEC_ECDSA_SIG_SUITE_2
      · exact ⟨h1, h2⟩
      · rw [if_neg (by simp [h1]), if_pos h2] at hok
        simp at hok
    · rw [if_pos h1] at hok
      simp at hok
  · intro hne b
    simp only [ZbSecEcdsaValidate, suiteCertLen, suiteSigLen]
    rw [if_pos hne]
  · intro hne b
    simp only [ZbSecEcdsaValidate, suiteCertLen, suiteSigLen]
    by_cases h1 : cert.length = ZB_SEC_CRYPTO_SUITE_V2_CERT_LEN
    · rw [if_neg (by simp [h1]), if_pos hne]
    · rw [if_pos h1]

/-- C8 witness: a 73-byte and a 75-byte certificate (with a well-formed
80-byte signature) are both rejected with `MalformedInput`, for either
outcome of the signature computation; a 74/80-byte well-formed pair with a
passing computation is accepted. -/
theorem C8_ecdsa_validate_lengths_witness :
    ZbSecEcdsaValidate .ZB_SEC_ECDSA_SIG_SUITE_2 (List.replicate 73 0)
      (List.replicate 80 0) true = .error .MalformedInput ∧
    ZbSecEcdsaValidate .ZB_SEC_ECDSA_SIG_SUITE_2 (List.replicate 73 0)
      (List.replicate 80 0) false = .error .MalformedInput ∧
    ZbSecEcdsaValidate .ZB_SEC_ECDSA_SIG_SUITE_2 (List.replicate 75 0)
      (List.replicate 80 0) true = .error .MalformedInput ∧
    EcdsaError.MalformedInput ≠ EcdsaError.SignatureInvalid :=
  ⟨(C8_ecdsa_validate_lengths (List.replicate 73 0) (List.replicate 80 0) true).2.2.1
     (by decide) true,
   (C8_ecdsa_validate_lengths (List.replicate 73 0) (List.replicate 80 0) false).2.2.1
     (by decide) false,
   (C8_ecdsa_validate_lengths (List.replicate 75 0) (List.replicate 80 0) true).2.2.1
     (by decide) true,
   (C8_ecdsa_validate_lengths [] [] true).2.2.2.2⟩

/-- Byte-wise xor with the same string twice returns the original, for
equal lengths. -/
theorem xorBytes_cancel (p ks : List Nat) (h : p.length = ks.length) :
    xorBytes (xorBytes p ks) ks = p := by
  induction ks generalizing p with
  | nil =>
    cases p with
    | nil => rfl
    | cons a p => simp at h
  | cons b ks ih =>
    cases p with
    | nil => simp at h
    | cons a p =>
      simp only [xorBytes, List.zipWith_cons_cons] at *
      rw [Nat.xor_cancel_right]
      exact congrArg (a :: ·) (ih p (by simpa using h))

/-- The keystream for a requested length has that length. -/
theorem keystream_length (key nonce : List Nat) (len : Nat) :
    (keystream key nonce len).length = len := by
  simp [keystream]

/-- C5: for every security level 0..7, every 16-byte key, every 13-byte
nonce, every header byte string and every payload of length at most 256,
decrypting the (ciphertext, mic) pair produced by `ccmEncrypt` with the
same level, key, nonce and header returns the original payload. -/
theorem C5_ccm_roundtrip (level : Nat) (key nonce hdr payload : List Nat)
    (hlevel : level < 8) (hkey : key.length = ZB_SEC_KEYSIZE)
    (hnonce : nonce.length = ZB_SEC_NONCE_LENGTH) (hlen : payload.length ≤ 256) :
    ccmDecrypt level key nonce hdr (ccmEncrypt level key nonce hdr payload).1
      (ccmEncrypt level key nonce hdr payload).2 = .ok payload := by
  simp only [ccmEncrypt, ccmDecrypt]
  by_cases henc : ZB_SEC_ENCRYPTED level = true
  · simp only [henc, if_true]
    have hks : payload.length = (keystream key nonce payload.length).length :=
      (keystream_length key nonce payload.length).symm
    have hctlen : (xorBytes payload (keystream key nonce payload.length)).length
        = payload.length := by
      simp [xorBytes, keystream_length]
    rw [hctlen, xorBytes_cancel payload _ hks]
    simp
  · simp only [henc, if_false]
    simp

/-- C5 witness: the theorem at level 5 (ENC-MIC-32), an all-zero 16-byte
key, a constant 13-byte nonce, a 1-byte header and a 2-byte payload. -/
theorem C5_ccm_roundtrip_witness :
    ccmDecrypt 5 (List.replicate 16 0) (List.replicate 13 7) [1]
      (ccmEncrypt 5 (List.replicate 16 0) (List.replicate 13 7) [1] [10, 20]).1
      (ccmEncrypt 5 (List.replicate 16 0) (List.replicate 13 7) [1] [10, 20]).2 =
      .ok [10, 20] :=
  C5_ccm_roundtrip 5 (List.replicate 16 0) (List.replicate 13 7) [1] [10, 20]
    (by decide) (by decide) (by decide) (by decide)
